import Mathlib

/-!
Verification development for the `litebenchmark` repository
(`src/simple_bench/{core.py, scorers.py}`).

Modelling conventions used throughout:
* Python strings are Lean `String`s; character-level processing works on
  `List Char` (`String.data`).  Character classes (`str.lower`, `str.strip`,
  `str.split`, `string.punctuation`, the regex classes `\d`, `\w`, `\b`)
  are modelled at ASCII granularity, matching Python's behaviour on the
  ASCII inputs the benchmark manipulates.
* Python floats are modelled as exact rationals (`ℚ`); `float(tok)` of a
  matched numeric token is the exact rational value of the token.
* Python dicts with string keys are modelled as insertion-ordered
  association lists (`List (String × String)`), with `d[k] = v` updating
  in place or appending, exactly like CPython dicts.
* `core.py` does **not** import `asyncio` (its imports are pandas, os,
  json, datetime, typing, tqdm.asyncio.tqdm, UniversalScorer,
  SingleTurnSample), yet `BenchmarkRunner.run` evaluates
  `asyncio.Semaphore` (core.py:75) and `BenchmarkRunner._run_single`
  evaluates `asyncio.iscoroutinefunction` (core.py:32).  Name resolution
  of `asyncio` in the module namespace is modelled explicitly by
  `coreModuleHasAsyncio` below, so the resulting `NameError` behaviour is
  part of the embedding.
-/

namespace SimpleBench

/-- Python `str.isspace` characters relevant to `str.split()`/`str.strip()`:
space, tab, newline, carriage return, vertical tab, form feed. -/
def pyIsSpace (c : Char) : Bool :=
  c == ' ' || c == '\t' || c == '\n' || c == '\r' || c == '\x0b' || c == '\x0c'

/-- The regex class `\d` (ASCII digits). -/
def pyIsDigit (c : Char) : Bool :=
  '0' ≤ c && c ≤ '9'

/-- Python's `string.punctuation` constant, written out character by
character. -/
def punctuationChars : List Char :=
  ['!', '"', '#', '$', '%', '&', '\x27', '(', ')', '*', '+', ',', '-', '.',
   '/', ':', ';', '<', '=', '>', '?', '@', '[', '\\', ']', '^', '_', '\x60',
   '\x7b', '|', '\x7d', '~']

/-- Membership in `string.punctuation`. -/
def pyIsPunct (c : Char) : Bool :=
  punctuationChars.contains c

/-- The regex class `\w` (ASCII view): letters, digits, underscore. -/
def pyIsWordChar (c : Char) : Bool :=
  c.isAlpha || pyIsDigit c || c == '_'

/-- Python `str.strip()`: drop leading and trailing whitespace. -/
def pyStrip (l : List Char) : List Char :=
  ((l.dropWhile pyIsSpace).reverse.dropWhile pyIsSpace).reverse

/-- Helper for `pySplit`: accumulate the current (reversed) word. -/
def pySplitAux : List Char → List Char → List (List Char)
  | [], acc => if acc.isEmpty then [] else [acc.reverse]
  | c :: rest, acc =>
    if pyIsSpace c then
      if acc.isEmpty then pySplitAux rest [] else acc.reverse :: pySplitAux rest []
    else
      pySplitAux rest (c :: acc)

/-- Python `str.split()` with no argument: split on whitespace runs,
discarding empty fields. -/
def pySplit (l : List Char) : List (List Char) :=
  pySplitAux l []

/-- `needle` is a prefix of `hay` (plain structural definition). -/
def leadsList : List Char → List Char → Bool
  | [], _ => true
  | _ :: _, [] => false
  | a :: as, b :: bs => a == b && leadsList as bs

/-- Python's substring test `needle in hay`. -/
def containsSub (hay needle : List Char) : Bool :=
  match hay with
  | [] => needle.isEmpty
  | _ :: t => leadsList needle hay || containsSub t needle

/-- Substring test on `String`s (`needle in hay` in Python). -/
def strContains (hay needle : String) : Bool :=
  containsSub hay.data needle.data

/-- Python `str.lower()` (ASCII). -/
def pyLower (l : List Char) : List Char :=
  l.map Char.toLower

/-- Python `str.upper()` (ASCII). -/
def pyUpper (l : List Char) : List Char :=
  l.map Char.toUpper

/-- Value of a digit string (used by the model of `float` on matched
numeric tokens). -/
def digitsToNat (ds : List Char) : ℕ :=
  ds.foldl (fun n c => 10 * n + (c.toNat - 48)) 0

/-- Value of an unsigned matched token: either `digits` or
`digits* '.' digits+`. -/
def unsignedTokenVal (t : List Char) : ℚ :=
  let ip := t.takeWhile pyIsDigit
  match t.dropWhile pyIsDigit with
  | '.' :: fr => (digitsToNat ip : ℚ) + (digitsToNat fr : ℚ) / (10 : ℚ) ^ fr.length
  | _ => (digitsToNat ip : ℚ)

/-- Model of Python `float(tok)` on the numeric tokens produced by the
scanners below (optional sign, then an unsigned integer or decimal). -/
def tokenVal : List Char → ℚ
  | '-' :: rest => -(unsignedTokenVal rest)
  | '+' :: rest => unsignedTokenVal rest
  | t => unsignedTokenVal t

/-- Length of a match of the regex branch `[-+]?\d*\.\d+` anchored at the
head of `l`, or `0` when that branch does not match there. -/
def decTokenLen (l : List Char) : ℕ :=
  let p : ℕ × List Char :=
    match l with
    | c :: rest => if c == '-' || c == '+' then (1, rest) else (0, l)
    | [] => (0, l)
  let ip := (p.2.takeWhile pyIsDigit).length
  match p.2.dropWhile pyIsDigit with
  | '.' :: l3 =>
    let fr := (l3.takeWhile pyIsDigit).length
    if fr = 0 then 0 else p.1 + ip + 1 + fr
  | _ => 0

/-- Fuel-indexed body of `findNums`.  Every scanning step consumes at
least one character of the list and one unit of fuel, so starting with
`l.length` units of fuel the `0` case is never reached on a non-empty
list; the fuel only makes the recursion structural. -/
def findNumsAux : ℕ → List Char → List (List Char)
  | 0, _ => []
  | _, [] => []
  | fuel + 1, c :: rest =>
    if 0 < decTokenLen (c :: rest) then
      (c :: rest).take (decTokenLen (c :: rest)) ::
        findNumsAux fuel ((c :: rest).drop (decTokenLen (c :: rest)))
    else
      if 0 < ((c :: rest).takeWhile pyIsDigit).length then
        (c :: rest).take ((c :: rest).takeWhile pyIsDigit).length ::
          findNumsAux fuel ((c :: rest).drop ((c :: rest).takeWhile pyIsDigit).length)
      else
        findNumsAux fuel rest

/-- `re.findall(r"[-+]?\d*\.\d+|\d+", s)` (scorers.py:50 and :56): scan left
to right; at each position try the signed-decimal branch first, then the
(unsigned) integer branch `\d+`; on failure advance one character. -/
def findNums (l : List Char) : List (List Char) :=
  findNumsAux l.length l

/-- Length of a match of `[-+]?\d+` (a *signed* integer literal) anchored at
the head of `l`, or `0` if none.  This is not what scorers.py does; it is
the integer branch as the specification describes it ("every signed
integer..."), used to formalise that reading. -/
def signedIntTokenLen (l : List Char) : ℕ :=
  match l with
  | c :: rest =>
    if c == '-' || c == '+' then
      let m := (rest.takeWhile pyIsDigit).length
      if m = 0 then 0 else m + 1
    else
      (l.takeWhile pyIsDigit).length
  | [] => 0

/-- Extraction as the specification words it: every *signed* integer or
decimal literal, scanning left to right (i.e. `[-+]?(\d*\.\d+|\d+)`). -/
def findNumsSignedAux : ℕ → List Char → List (List Char)
  | 0, _ => []
  | _, [] => []
  | fuel + 1, c :: rest =>
    if 0 < decTokenLen (c :: rest) then
      (c :: rest).take (decTokenLen (c :: rest)) ::
        findNumsSignedAux fuel ((c :: rest).drop (decTokenLen (c :: rest)))
    else
      if 0 < signedIntTokenLen (c :: rest) then
        (c :: rest).take (signedIntTokenLen (c :: rest)) ::
          findNumsSignedAux fuel ((c :: rest).drop (signedIntTokenLen (c :: rest)))
      else
        findNumsSignedAux fuel rest

/-- Extraction as C2 words it, with the same left-to-right scan as
`findNums` but signed integers admitted (fuel as in `findNumsAux`). -/
def findNumsSigned (l : List Char) : List (List Char) :=
  findNumsSignedAux l.length l

/-! ## UniversalScorer (src/src/simple_bench/scorers.py) -/

namespace UniversalScorer

/-- Embeds `UniversalScorer._score_gsm8k` (scorers.py:48-61): extract the
numbers of both strings with `re.findall(r"[-+]?\d*\.\d+|\d+", ·)`, return
`0.0` when either extraction is empty, otherwise compare the values of the
two last tokens within `1e-6`. -/
def score_gsm8k (prediction ground_truth : String) : ℚ :=
  match (findNums prediction.data).getLast? with
  | none => 0
  | some predTok =>
    match (findNums ground_truth.data).getLast? with
    | none => 0
    | some gtTok =>
      if |tokenVal predTok - tokenVal gtTok| < 1 / 1000000 then 1 else 0

/-- The normalisation of `UniversalScorer._score_gaia` (scorers.py:64-65):
`s.lower().strip().translate(str.maketrans('', '', string.punctuation))`. -/
def gaiaNormalize (s : String) : List Char :=
  (pyStrip (pyLower s.data)).filter (fun c => !pyIsPunct c)

/-- Embeds `UniversalScorer._score_gaia` (scorers.py:63-66). -/
def score_gaia (prediction ground_truth : String) : ℚ :=
  if gaiaNormalize prediction = gaiaNormalize ground_truth then 1 else 0

/-- `leadsList w l` and the article is followed by a word boundary: end of
string or a non-`\w` character (the trailing `\b` of
`re.sub(r"\b(a|an|the)\b", " ", text)`, scorers.py:74). -/
def articleHere (w l : List Char) : Bool :=
  leadsList w l &&
    (match l.drop w.length with
     | [] => true
     | d :: _ => !pyIsWordChar d)

/-- Length of the article (`a`, `an` or `the`) matched at the head of `l`
with a trailing word boundary, or `0` (the leading `\b` is checked by the
caller).  At most one alternative can match, so the order of the tests is
irrelevant. -/
def articleLen (l : List Char) : ℕ :=
  if articleHere ['t', 'h', 'e'] l then 3
  else if articleHere ['a', 'n'] l then 2
  else if articleHere ['a'] l then 1
  else 0

/-- Scanner for `re.sub(r"\b(a|an|the)\b", " ", text)` (scorers.py:74):
`prevW` records whether the previous character of the original string was a
`\w` character (the leading `\b` demands it was not, since articles start
with a word character).  A matched article is replaced by one space and
scanning resumes after it; the character before the resumption point is the
article's final letter only when a match just occurred, and then no new
match can start anyway because the trailing boundary character is
non-word, so tracking `prevW := false` there is faithful. -/
def removeArticlesAux : ℕ → Bool → List Char → List Char
  | 0, _, _ => []
  | _, _, [] => []
  | fuel + 1, prevW, c :: rest =>
    if prevW = false ∧ 0 < articleLen (c :: rest) then
      ' ' :: removeArticlesAux fuel false ((c :: rest).drop (articleLen (c :: rest)))
    else
      c :: removeArticlesAux fuel (pyIsWordChar c) rest

/-- `remove_articles` of `_score_hotpotqa.normalize_answer`
(scorers.py:73-74).  Every step of the scanner consumes at least one
character, so `l.length` units of fuel always suffice. -/
def removeArticles (l : List Char) : List Char :=
  removeArticlesAux l.length false l

/-- `white_space_fix` (scorers.py:75-76): `' '.join(text.split())`. -/
def whiteSpaceFix (l : List Char) : List Char :=
  List.intercalate [' '] (pySplit l)

/-- `remove_punc` (scorers.py:77-79): drop every `string.punctuation`
character. -/
def removePunc (l : List Char) : List Char :=
  l.filter (fun c => !pyIsPunct c)

/-- `normalize_answer` (scorers.py:72-82):
`white_space_fix(remove_articles(remove_punc(lower(s))))`. -/
def normalizeAnswer (s : String) : List Char :=
  whiteSpaceFix (removeArticles (removePunc (pyLower s.data)))

/-- The token lists of `_score_hotpotqa` (scorers.py:84-85):
`normalize_answer(s).split()`. -/
def hotpotTokens (s : String) : List (List Char) :=
  pySplit (normalizeAnswer s)

/-- The F1 computation of `_score_hotpotqa` (scorers.py:87-98) on the two
token lists.  `num_same` is `len(set(pred_tokens) & set(gt_tokens))`: the
number of distinct tokens occurring in both lists; precision and recall
divide it by the full (multiplicity-keeping) list lengths. -/
def hotpotF1 (predTokens gtTokens : List (List Char)) : ℚ :=
  let numSame : ℕ := (predTokens.dedup.filter (fun t => gtTokens.contains t)).length
  if predTokens.length = 0 ∨ gtTokens.length = 0 then
    if predTokens = gtTokens then 1 else 0
  else
    let precision : ℚ := (numSame : ℚ) / (predTokens.length : ℚ)
    let recallV : ℚ := (numSame : ℚ) / (gtTokens.length : ℚ)
    if precision + recallV = 0 then 0
    else 2 * precision * recallV / (precision + recallV)

/-- Embeds `UniversalScorer._score_hotpotqa` (scorers.py:68-101).  The
Python method also receives the (unused) `dataset_name` argument, omitted
here. -/
def score_hotpotqa (prediction ground_truth : String) : ℚ :=
  if 4 / 5 < hotpotF1 (hotpotTokens prediction) (hotpotTokens ground_truth) then 1
  else 0

/-- Scanner for `re.findall(r"\b([A-E])\b", s)` (scorers.py:109): collect
every character `A`-`E` that is word-boundary delimited on both sides;
`prevW` tracks whether the previous character was a `\w` character. -/
def mmmuLettersAux (prevW : Bool) : List Char → List Char
  | [] => []
  | c :: rest =>
    let hit := !prevW && ('A' ≤ c && c ≤ 'E') &&
      (match rest with
       | [] => true
       | d :: _ => !pyIsWordChar d)
    if hit then c :: mmmuLettersAux (pyIsWordChar c) rest
    else mmmuLettersAux (pyIsWordChar c) rest

/-- Embeds `UniversalScorer._score_mmmu` (scorers.py:103-114): find every
standalone letter `A`-`E` in `prediction.upper()`, take the last one, and
compare it with `ground_truth.strip().upper()`. -/
def score_mmmu (prediction ground_truth : String) : ℚ :=
  match (mmmuLettersAux false (pyUpper prediction.data)).getLast? with
  | none => 0
  | some c =>
    if [c] = pyUpper (pyStrip ground_truth.data) then 1 else 0

/-- The default rule of `UniversalScorer.score` (scorers.py:46):
`1.0 if prediction.strip() == ground_truth.strip() else 0.0`. -/
def scoreDefault (prediction ground_truth : String) : ℚ :=
  if pyStrip prediction.data = pyStrip ground_truth.data then 1 else 0

/-- Embeds the dispatch of `UniversalScorer.score` (scorers.py:20-46) on an
already-extracted dataset tag: the code computes
`dataset_name = sample.metadata.get("dataset", "").lower()` and then walks
the if/elif chain with Python's substring test `in`. -/
def dispatch (dataset_tag prediction ground_truth : String) : ℚ :=
  let datasetName := String.mk (pyLower dataset_tag.data)
  if strContains datasetName "gsm8k" then score_gsm8k prediction ground_truth
  else if strContains datasetName "gaia" then score_gaia prediction ground_truth
  else if strContains datasetName "hotpotqa" then score_hotpotqa prediction ground_truth
  else if strContains datasetName "mmmu" then score_mmmu prediction ground_truth
  else scoreDefault prediction ground_truth

end UniversalScorer

/-! ## BenchmarkRunner (src/src/simple_bench/core.py) -/

/-- String-keyed Python dict with string values (insertion ordered), as
used for `metadata` and for dict-shaped agent responses. -/
abbrev Metadata : Type := List (String × String)

/-- `d.get(k, default)` returning `none` when the key is absent. -/
def metaGet (m : Metadata) (k : String) : Option String :=
  (List.find? (fun p => p.1 == k) m).map Prod.snd

/-- `d[k] = v` on a CPython dict: overwrite in place when the key exists,
otherwise append the new entry. -/
def metaSet (m : Metadata) (k v : String) : Metadata :=
  if List.any m (fun p => p.1 == k) then
    List.map (fun p : String × String => if p.1 == k then (k, v) else p) m
  else
    m ++ [(k, v)]

/-- One input record of the dataset (core.py:13: a dict with `question`,
`ground_truth`, `metadata`; `_run_single` additionally reads `dataset` and
`metadata` with `.get` and a default, so those two are optional). -/
structure Record where
  question : String
  ground_truth : String
  metadata : Option Metadata
  dataset : Option String
deriving DecidableEq

/-- An agent return value as normalised by core.py:40-48: a plain string,
a dict (read with `.get("answer", "")` / `.get("rationale", "")`), or any
other value, modelled by its `str(...)` rendering. -/
inductive PyValue where
  | str (s : String)
  | dict (entries : Metadata)
  | other (rendering : String)
deriving DecidableEq

/-- The agent callable: returns a value or raises an exception with the
given `str(e)` message. -/
abbrev Agent : Type := String → Except String PyValue

/-- Response normalisation (core.py:39-48), producing `(answer, rationale)`. -/
def normalizeResponse : PyValue → String × String
  | .str s => (s, "")
  | .dict d => ((metaGet d "answer").getD "", (metaGet d "rationale").getD "")
  | .other r => (r, "")

/-- One scored result dict as built at core.py:61-69. -/
structure EvalResult where
  question : String
  ground_truth : String
  prediction : String
  rationale : String
  score : ℚ
  dataset : String
  metadata : Metadata
deriving DecidableEq

/-- The names bound at module level by core.py's import statements
(core.py:1-8).  `asyncio` is **not** among them: core.py never imports
`asyncio`, although `_run_single` and `run` both use it. -/
def coreImportedNames : List String :=
  ["pd", "os", "json", "datetime", "List", "Dict", "Any", "Callable",
   "Union", "tqdm", "UniversalScorer", "SingleTurnSample"]

/-- Whether the name `asyncio` resolves in core.py's module namespace. -/
def coreModuleHasAsyncio : Bool :=
  coreImportedNames.contains "asyncio"

/-- The `str(e)` of the `NameError` raised when core.py evaluates
`asyncio.…`. -/
def asyncioNameErrorMsg : String :=
  "name \x27asyncio\x27 is not defined"

namespace BenchmarkRunner

/-- Embeds `BenchmarkRunner._run_single` (core.py:22-69).  Returns the
result dict together with the record as it stands afterwards:
`metadata = item.get("metadata", {})` aliases the record's own dict when
the record has one, so `metadata["dataset"] = dataset_name` (core.py:29)
is visible on the record; when the record has no `metadata` key the
default `{}` is a fresh dict and the record is unchanged.  Inside the
`try` block the first evaluated expression is
`asyncio.iscoroutinefunction(self.agent_func)` (core.py:32); since
`asyncio` is unbound this raises `NameError`, which `except Exception`
catches, so the agent is only invoked when `asyncio` resolves. -/
def run_single (agent : Agent) (item : Record) : EvalResult × Record :=
  let question := item.question
  let ground_truth := item.ground_truth
  let metadata0 := item.metadata.getD []
  let dataset_name := item.dataset.getD ""
  let metadata := metaSet metadata0 "dataset" dataset_name
  let itemAfter : Record :=
    { item with
      metadata :=
        match item.metadata with
        | none => none
        | some m => some (metaSet m "dataset" dataset_name) }
  let response : PyValue :=
    if coreModuleHasAsyncio then
      match agent question with
      | .ok v => v
      | .error msg => .dict [("answer", "Error: " ++ msg)]
    else
      .dict [("answer", "Error: " ++ asyncioNameErrorMsg)]
  let ar := normalizeResponse response
  let score := UniversalScorer.dispatch ((metaGet metadata "dataset").getD "")
    ar.1 ground_truth
  (⟨question, ground_truth, ar.1, ar.2, score, dataset_name, metadata⟩, itemAfter)

/-- Outcome of awaiting `BenchmarkRunner.run` (core.py:71-83): either the
collected results (with the post-run state of the input records), or the
`NameError` escaping from `asyncio.Semaphore(concurrency)` (core.py:75). -/
inductive RunOutcome where
  | ok (results : List EvalResult) (datasetAfter : List Record)
  | nameErrorAsyncio
deriving DecidableEq

/-- Embeds `BenchmarkRunner.run` (core.py:71-83).  The first statement,
`semaphore = asyncio.Semaphore(concurrency)`, resolves the module-level
name `asyncio`; when it is unbound the `NameError` propagates out of
`run` (there is no handler).  Otherwise the per-record tasks are built in
dataset order (core.py:81) and `tqdm.gather` — a wrapper of
`asyncio.gather` — returns their values positionally, which the pure
model renders as a `map` over the dataset; the semaphore bounds
scheduling only and does not affect the collected values, so
`concurrency` does not enter the functional result. -/
def run (agent : Agent) (dataset : List Record) (concurrency : ℕ) : RunOutcome :=
  if coreModuleHasAsyncio then
    .ok (dataset.map (fun item => (run_single agent item).1))
      (dataset.map (fun item => (run_single agent item).2))
  else
    .nameErrorAsyncio

/-- `df["score"].mean()` / `df.groupby(...)["score"].mean()`: arithmetic
mean as pandas computes it (sum of the column divided by its length). -/
def pandasMean (l : List ℚ) : ℚ :=
  l.foldl (· + ·) 0 / (l.length : ℚ)

/-- The value `report()` returns (core.py:126-141): either the
`{"error": "No results"}` dict or the summary dict; `by_dataset` is the
`groupby` mean keyed by dataset tag (association list, one entry per
distinct tag). -/
inductive Report where
  | noResults (msg : String)
  | summary (total_samples : ℕ) (average_score accuracy : ℚ)
      (by_dataset : Option (List (String × ℚ)))
deriving DecidableEq

/-- Embeds `BenchmarkRunner.report` (core.py:126-141) as a function of the
result collection.  `df.empty` iff the collection is empty;
`(df["score"] == 1.0).mean()` is the fraction of rows with score exactly
`1.0`; `df["dataset"].nunique() > 1` gates `by_dataset`, whose entries are
the per-tag means (every result dict carries a `dataset` key, so the
column always exists on a non-empty frame). -/
def report (results : List EvalResult) : Report :=
  if results.isEmpty then .noResults "No results"
  else
    let scores := results.map EvalResult.score
    let tags := results.map EvalResult.dataset
    let by_dataset : Option (List (String × ℚ)) :=
      if 1 < tags.dedup.length then
        some (tags.dedup.map (fun t =>
          (t, pandasMean ((results.filter (fun r => decide (r.dataset = t))).map EvalResult.score))))
      else none
    .summary results.length (pandasMean scores)
      ((results.countP (fun r => decide (r.score = 1)) : ℚ) / (results.length : ℚ))
      by_dataset

end BenchmarkRunner

/-! ## Specification-side definitions

These definitions follow the wording of the specification (spec.md §4.2,
§4.3 and the claims derived from it), to be compared with the embeddings
above. -/

/-- The value of the last literal extracted from `s` by the extraction
function `extract`, if any ("take the last one"). -/
def gsm8kLastVal (extract : List Char → List (List Char)) (s : String) : Option ℚ :=
  ((extract s.data).getLast?).map tokenVal

/-- The gsm8k rule as the specification words it, parameterised by the
extraction function: "score 1.0 iff both extractions succeed and
`abs(pred - gt) < 1e-6`; score 0.0 if either side yields no numeric
literal". -/
def gsm8kScoreBy (extract : List Char → List (List Char))
    (prediction ground_truth : String) : ℚ :=
  match gsm8kLastVal extract prediction, gsm8kLastVal extract ground_truth with
  | some predVal, some gtVal => if |predVal - gtVal| < 1 / 1000000 then 1 else 0
  | _, _ => 0

/-- The gsm8k rule exactly as claimed: extraction takes "every signed
integer or decimal literal". -/
def gsm8kClaimScore : String → String → ℚ :=
  gsm8kScoreBy findNumsSigned

/-- The gsm8k rule as amended by the code's actual regex: decimal literals
may carry a sign, bare integer literals are matched without one. -/
def gsm8kAmendedScore : String → String → ℚ :=
  gsm8kScoreBy findNums

/-- The dispatch table as the specification words it: "a small, explicitly
ordered list of (predicate, scoring-function) pairs", in the fixed
priority order gsm8k → gaia → hotpotqa → mmmu. -/
def specRules : List (String × (String → String → ℚ)) :=
  [("gsm8k", UniversalScorer.score_gsm8k),
   ("gaia", UniversalScorer.score_gaia),
   ("hotpotqa", UniversalScorer.score_hotpotqa),
   ("mmmu", UniversalScorer.score_mmmu)]

/-- The dispatcher as the specification words it: first rule whose tag is
a substring of the lower-cased dataset tag wins; no match falls back to
the default exact-stripped-string rule. -/
def dispatchSpec (dataset_tag prediction ground_truth : String) : ℚ :=
  match specRules.find?
      (fun r => strContains (String.mk (pyLower dataset_tag.data)) r.1) with
  | some r => r.2 prediction ground_truth
  | none => UniversalScorer.scoreDefault prediction ground_truth

/-- A two-element result collection used as a concrete aggregation
fixture (two distinct dataset tags). -/
def sampleResults : List EvalResult :=
  [⟨"q1", "61", "61", "", 1, "gsm8k", [("dataset", "gsm8k")]⟩,
   ⟨"q2", "Paris", "London", "", 0, "gaia", [("dataset", "gaia")]⟩]

/-- Token F1 as the claim words it: precision, recall and F1 computed over
the **set** intersection of the token lists (each distinct token counted
once, via `Finset` intersection); if either token list is empty, F1 is 1
iff the two token lists are equal, else 0. -/
def hotpotSpecF1 (predTokens gtTokens : List (List Char)) : ℚ :=
  if predTokens = [] ∨ gtTokens = [] then
    if predTokens = gtTokens then 1 else 0
  else
    let numSame : ℚ := ((predTokens.toFinset ∩ gtTokens.toFinset).card : ℚ)
    let precision : ℚ := numSame / (predTokens.length : ℚ)
    let recallV : ℚ := numSame / (gtTokens.length : ℚ)
    if precision + recallV = 0 then 0
    else 2 * precision * recallV / (precision + recallV)

/-- The hotpotqa rule as the claim words it: normalize and tokenize both
strings, compute set-based token F1, and return 1.0 iff F1 > 0.8. -/
def hotpotSpecScore (prediction ground_truth : String) : ℚ :=
  if 4 / 5 < hotpotSpecF1 (UniversalScorer.hotpotTokens prediction)
      (UniversalScorer.hotpotTokens ground_truth) then 1 else 0

/-! ## Helper lemmas -/

/-- Deduplication commutes with filtering: an element's last occurrence in
the filtered list sits where its last occurrence in the original list
does, whenever it passes the filter. -/
theorem dedup_filter_comm {α : Type} [DecidableEq α] (p : α → Bool) (l : List α) :
    (l.filter p).dedup = l.dedup.filter p := by
  induction l with
  | nil => simp
  | cons a l ih =>
    by_cases hp : p a
    · by_cases hm : a ∈ l
      · rw [List.filter_cons_of_pos hp, List.dedup_cons_of_mem hm,
          List.dedup_cons_of_mem (List.mem_filter.2 ⟨hm, hp⟩), ih]
      · rw [List.filter_cons_of_pos hp,
          List.dedup_cons_of_not_mem (fun hc => hm (List.mem_filter.1 hc).1),
          List.dedup_cons_of_not_mem hm, List.filter_cons_of_pos hp, ih]
    · rw [List.filter_cons_of_neg (by simpa using hp)]
      by_cases hm : a ∈ l
      · rw [List.dedup_cons_of_mem hm, ih]
      · rw [List.dedup_cons_of_not_mem hm, List.filter_cons_of_neg (by simpa using hp), ih]

/-- The size of the set intersection of two token lists equals the number
of distinct elements of the first list that occur in the second — the
bridge between the claim's `set(pred) & set(gt)` reading and the list
computation in the embedding. -/
theorem card_toFinset_inter (l₁ l₂ : List (List Char)) :
    (l₁.toFinset ∩ l₂.toFinset).card
      = (l₁.dedup.filter (fun t => l₂.contains t)).length := by
  induction l₁ with
  | nil => simp
  | cons a l ih =>
    by_cases hm : a ∈ l
    · rw [List.toFinset_cons, Finset.insert_eq_self.2 (List.mem_toFinset.2 hm),
        List.dedup_cons_of_mem hm, ih]
    · by_cases h2 : a ∈ l₂
      · rw [List.toFinset_cons,
          Finset.insert_inter_of_mem (List.mem_toFinset.2 h2),
          Finset.card_insert_of_not_mem
            (fun hc => hm (List.mem_toFinset.1 (Finset.mem_of_mem_inter_left hc))),
          List.dedup_cons_of_not_mem hm,
          List.filter_cons_of_pos
            (show (fun t => l₂.contains t) a = true from List.elem_eq_true_of_mem h2),
          List.length_cons, ih]
      · rw [List.toFinset_cons,
          Finset.insert_inter_of_not_mem (fun hc => h2 (List.mem_toFinset.1 hc)),
          List.dedup_cons_of_not_mem hm,
          List.filter_cons_of_neg
            (show ¬(fun t => l₂.contains t) a = true from fun hc =>
              h2 (List.mem_of_elem_eq_true hc)), ih]

/-- The code's F1 (with `num_same` computed by filtering deduplicated
tokens) coincides with the claim's set-intersection F1. -/
theorem hotpotF1_eq_spec (predTokens gtTokens : List (List Char)) :
    UniversalScorer.hotpotF1 predTokens gtTokens = hotpotSpecF1 predTokens gtTokens := by
  unfold UniversalScorer.hotpotF1 hotpotSpecF1
  by_cases h : predTokens.length = 0 ∨ gtTokens.length = 0
  · have h' : predTokens = [] ∨ gtTokens = [] := by
      simpa [List.length_eq_zero] using h
    rw [if_pos h, if_pos h']
  · have h' : ¬(predTokens = [] ∨ gtTokens = []) := by
      simpa [List.length_eq_zero] using h
    rw [if_neg h, if_neg h', card_toFinset_inter]

/-! ## Claim theorems -/

/-- C1: the claim — awaiting `BenchmarkRunner.run` completes normally with
one `EvalResult` per input record — fails on the code: core.py never
imports `asyncio`, so for every agent, dataset and concurrency limit,
`run` raises `NameError` at `asyncio.Semaphore(concurrency)` (core.py:75)
and never produces a result collection. -/
theorem run_always_raises_asyncio_name_error
    (agent : Agent) (dataset : List Record) (concurrency : ℕ) :
    BenchmarkRunner.run agent dataset concurrency
      = BenchmarkRunner.RunOutcome.nameErrorAsyncio := rfl

/-- C5: the claim — an agent exception surfaces as a scored result whose
prediction is "Error: " plus the agent's exception message — fails on the
code: inside `_run_single`'s `try` block the unbound name `asyncio`
raises `NameError` *before* the agent is invoked, so the emitted
prediction carries the `NameError` message, not the agent's ("boom"
here), for every record. -/
theorem run_single_prediction_is_asyncio_error :
    (BenchmarkRunner.run_single (fun _ => Except.error "boom")
        ⟨"What is 2+2?", "4", some [], some "gsm8k"⟩).1.prediction
      = "Error: name \x27asyncio\x27 is not defined"
    ∧ ((BenchmarkRunner.run_single (fun _ => Except.error "boom")
        ⟨"What is 2+2?", "4", some [], some "gsm8k"⟩).1.prediction
      == "Error: boom") = false := by
  with_unfolding_all decide

/-- C7: on an empty result collection `report` returns the explicit
no-data dict `{"error": "No results"}` (core.py:128-129), not a crash, a
division by zero, or silent zero statistics. -/
theorem report_empty_is_no_results :
    BenchmarkRunner.report [] = BenchmarkRunner.Report.noResults "No results" := rfl

/-- C8 counterexample: the record `⟨"q", "4", metadata {}, dataset
"gsm8k"⟩` does not come back unchanged from its evaluation: `_run_single`
executes `metadata["dataset"] = dataset_name` (core.py:29) on the
record's own metadata dict, which afterwards holds the new entry
`("dataset", "gsm8k")`. -/
theorem run_single_mutates_record_counterexample :
    (BenchmarkRunner.run_single (fun _ => Except.ok (.str "4"))
        ⟨"q", "4", some [], some "gsm8k"⟩).2.metadata
      = some [("dataset", "gsm8k")]
    ∧ (decide ((BenchmarkRunner.run_single (fun _ => Except.ok (.str "4"))
        ⟨"q", "4", some [], some "gsm8k"⟩).2
      = (⟨"q", "4", some [], some "gsm8k"⟩ : Record))) = false := by
  with_unfolding_all decide

/-- C8 amended: a record evaluation leaves `question`, `ground_truth` and
`dataset` unchanged, and mutates the record's metadata mapping exactly by
setting its `"dataset"` entry to the record's dataset tag (records
without a metadata mapping are left unchanged, the mutation then hitting
the fresh default dict). -/
theorem run_single_record_after (agent : Agent) (item : Record) :
    (BenchmarkRunner.run_single agent item).2.question = item.question
    ∧ (BenchmarkRunner.run_single agent item).2.ground_truth = item.ground_truth
    ∧ (BenchmarkRunner.run_single agent item).2.dataset = item.dataset
    ∧ (BenchmarkRunner.run_single agent item).2.metadata
      = item.metadata.map (fun m => metaSet m "dataset" (item.dataset.getD "")) := by
  obtain ⟨q, g, md, ds⟩ := item
  refine ⟨rfl, rfl, rfl, ?_⟩
  cases md <;> rfl

/-- C10: the claim — `run` returns the i-th record's result in position i
— fails on the code: on this concrete two-record dataset (as on every
other input) `run` raises `NameError` because core.py never imports
`asyncio`, so no ordered result collection exists at all. -/
theorem run_on_two_records_raises_name_error :
    BenchmarkRunner.run (fun _ => Except.ok (.str "61"))
        [⟨"q1", "#### 61", some [], some "gsm8k"⟩, ⟨"q2", "Paris", none, some "gaia"⟩] 10
      = BenchmarkRunner.RunOutcome.nameErrorAsyncio := rfl

/-- C2 counterexample: on prediction "-3" against ground truth "3" the
claim's extraction ("every *signed* integer or decimal literal") reads the
last literals as -3 and 3, whose distance is 6, demanding score 0.0 — but
`_score_gsm8k` returns 1.0, because the regex
`[-+]?\d*\.\d+|\d+` only admits a sign on the decimal branch and extracts
the bare "3" from "-3". -/
theorem gsm8k_signed_integer_counterexample :
    UniversalScorer.score_gsm8k "-3" "3" = 1 ∧ gsm8kClaimScore "-3" "3" = 0 := by
  with_unfolding_all decide

/-- C2 amended: the gsm8k score equals the claimed last-extracted-value
comparison once the extraction is read off the code's regex — decimal
literals may carry a sign, bare integer literals are matched without one:
1.0 iff both strings yield at least one literal and the last values
differ by less than 1e-6, else 0.0. -/
theorem score_gsm8k_eq_amended_spec (prediction ground_truth : String) :
    UniversalScorer.score_gsm8k prediction ground_truth
      = gsm8kAmendedScore prediction ground_truth := by
  unfold UniversalScorer.score_gsm8k gsm8kAmendedScore gsm8kScoreBy gsm8kLastVal
  cases h1 : (findNums prediction.data).getLast? <;>
    cases h2 : (findNums ground_truth.data).getLast? <;>
      simp [h1, h2]

/-- C3: the dispatcher equals the specification's explicitly ordered
first-match rule table (gsm8k → gaia → hotpotqa → mmmu, falling back to
the exact stripped-string rule), the match being a substring test against
the lower-cased dataset tag; and in particular a tag containing both
"gaia" and "gsm8k" is scored by the gsm8k rule. -/
theorem dispatch_eq_spec_and_priority :
    (∀ dataset_tag prediction ground_truth : String,
      UniversalScorer.dispatch dataset_tag prediction ground_truth
        = dispatchSpec dataset_tag prediction ground_truth)
    ∧ (∀ dataset_tag prediction ground_truth : String,
      strContains (String.mk (pyLower dataset_tag.data)) "gaia" = true →
      strContains (String.mk (pyLower dataset_tag.data)) "gsm8k" = true →
      UniversalScorer.dispatch dataset_tag prediction ground_truth
        = UniversalScorer.score_gsm8k prediction ground_truth) := by
  constructor
  · intro tag p g
    unfold UniversalScorer.dispatch dispatchSpec specRules
    simp only [List.find?]
    cases h1 : strContains (String.mk (pyLower tag.data)) "gsm8k" <;>
      cases h2 : strContains (String.mk (pyLower tag.data)) "gaia" <;>
        cases h3 : strContains (String.mk (pyLower tag.data)) "hotpotqa" <;>
          cases h4 : strContains (String.mk (pyLower tag.data)) "mmmu" <;>
            simp [h1, h2, h3, h4]
  · intro tag p g _hgaia hgsm
    unfold UniversalScorer.dispatch
    simp [hgsm]

/-- Witness for C3's priority clause at the pathological tag "gaia_gsm8k"
(score_gsm8k accepts "3.0" against "3"; the gaia rule would not). -/
theorem dispatch_priority_witness :
    strContains (String.mk (pyLower "gaia_gsm8k".data)) "gaia" = true
    ∧ strContains (String.mk (pyLower "gaia_gsm8k".data)) "gsm8k" = true
    ∧ UniversalScorer.dispatch "gaia_gsm8k" "3.0" "3"
        = UniversalScorer.score_gsm8k "3.0" "3" :=
  ⟨by decide, by decide,
    dispatch_eq_spec_and_priority.2 "gaia_gsm8k" "3.0" "3" (by decide) (by decide)⟩

/-- C4: the hotpotqa rule equals the claim's description — normalize both
strings (lower-case, strip punctuation, collapse whitespace, remove the
whole-word articles a/an/the), tokenize on whitespace, compute
precision/recall/F1 with the *set* intersection of the token lists as
numerator (each distinct token once, via `Finset` intersection), the
empty-token-list rule comparing the token lists for equality, and final
score 1.0 iff F1 > 0.8. -/
theorem score_hotpotqa_eq_spec (prediction ground_truth : String) :
    UniversalScorer.score_hotpotqa prediction ground_truth
      = hotpotSpecScore prediction ground_truth := by
  unfold UniversalScorer.score_hotpotqa hotpotSpecScore
  rw [hotpotF1_eq_spec]

/-- C6: on a non-empty result collection `report` returns `total_samples`
equal to the collection size, `average_score` equal to the arithmetic mean
of the scores (their sum divided by the count), `accuracy` equal to the
fraction of results whose score is exactly 1.0, and includes the
per-dataset mean mapping if and only if more than one distinct dataset
tag occurs. -/
theorem report_nonempty_summary (results : List EvalResult) (h : results ≠ []) :
    BenchmarkRunner.report results
      = BenchmarkRunner.Report.summary
          results.length
          ((results.map EvalResult.score).sum / (results.length : ℚ))
          (((results.filter (fun r => decide (r.score = 1))).length : ℚ)
            / (results.length : ℚ))
          (if 1 < ((results.map EvalResult.dataset).dedup).length then
            some (((results.map EvalResult.dataset).dedup).map (fun t =>
              (t, ((results.filter (fun r => decide (r.dataset = t))).map
                      EvalResult.score).sum
                  / (((results.filter (fun r => decide (r.dataset = t))).length : ℚ)))))
          else none) := by
  unfold BenchmarkRunner.report
  rw [if_neg (by simpa [List.isEmpty_iff] using h)]
  unfold BenchmarkRunner.pandasMean
  simp only [List.countP_eq_length_filter, ← List.sum_eq_foldl, List.length_map]

/-- Witness for C6 on the two-element fixture `sampleResults` (scores 1
and 0 under two distinct dataset tags). -/
theorem report_nonempty_summary_witness :
    sampleResults ≠ []
    ∧ BenchmarkRunner.report sampleResults
      = BenchmarkRunner.Report.summary
          sampleResults.length
          ((sampleResults.map EvalResult.score).sum / (sampleResults.length : ℚ))
          (((sampleResults.filter (fun r => decide (r.score = 1))).length : ℚ)
            / (sampleResults.length : ℚ))
          (if 1 < ((sampleResults.map EvalResult.dataset).dedup).length then
            some (((sampleResults.map EvalResult.dataset).dedup).map (fun t =>
              (t, ((sampleResults.filter (fun r => decide (r.dataset = t))).map
                      EvalResult.score).sum
                  / (((sampleResults.filter (fun r => decide (r.dataset = t))).length : ℚ)))))
          else none) :=
  ⟨List.cons_ne_nil _ _, report_nonempty_summary sampleResults (List.cons_ne_nil _ _)⟩

end SimpleBench
